import Mathlib

/-!
Verification of `weather_floor_lamp.py`, a single-pass script that fetches a
rain-chance forecast and drives a SwitchBot floor lamp.  The Python source is
shallowly embedded: pure functions become Lean functions on `Int`/`Nat`,
effectful code (HTTP, clock, randomness) is parameterised by explicit input
data and returns the trace of requests it would emit, and fallible code
returns `Option`.  Python float arithmetic (IEEE-754 binary64) is modelled
exactly, by round-to-nearest-even on rational values represented as
numerator/denominator pairs of naturals.
-/

namespace WeatherFloorLamp

/-! ## Rain percentage to RGB mapping

Embedding of `map_rain_to_rgb` (source lines 176-196).  Python's `int` is
`Int`; the chain of `if rain <= k` tests is transcribed directly. -/

def map_rain_to_rgb (rain : Int) : Int × Int × Int :=
  if rain = 0 then (255, 127, 0)
  else if rain ≤ 20 then (255, 255, 0)
  else if rain ≤ 40 then (127, 255, 0)
  else if rain ≤ 60 then (0, 255, 255)
  else if rain ≤ 80 then (0, 127, 255)
  else (0, 0, 255)

/-! ## Exact model of IEEE-754 binary64 rounding

`map_rain_to_ct` computes `int(2700 + 3800 * (rain / 100.0))` in Python
floats.  A positive rational `n / d` is rounded to the nearest double by
scaling it into the significand range `[2^52, 2^53)` (numerator times `2^a`,
denominator times `2^b`), rounding the scaled value to the nearest integer
with ties to even, and reading the result back as the pair
`(m * 2^b, 2^a)`.  All values arising here are far from the subnormal and
overflow ranges, so normal-range rounding is the whole semantics. -/

/-- Round the rational `N / D` (with `2^52 ≤ N/D < 2^53`) to the nearest
integer, ties to even. -/
def rte (N D : Nat) : Nat :=
  let q := N / D
  let r := N % D
  if 2 * r < D then q
  else if D < 2 * r then q + 1
  else if q % 2 = 0 then q else q + 1

/-- Find shift amounts `(a, b)` with `2^52 * (d * 2^b) ≤ n * 2^a < 2^53 * (d * 2^b)`,
by doubling whichever side is too small.  The fuel bounds the number of
doublings; 4000 far exceeds any magnitude arising in this program. -/
def findShift : Nat → Nat → Nat → Nat × Nat
  | 0, _, _ => (0, 0)
  | fuel + 1, n, d =>
    if n < 2 ^ 52 * d then
      let p := findShift fuel (2 * n) d
      (p.1 + 1, p.2)
    else if 2 ^ 53 * d ≤ n then
      let p := findShift fuel n (2 * d)
      (p.1, p.2 + 1)
    else (0, 0)

/-- The value of the IEEE-754 binary64 nearest to `n / d` (round to nearest,
ties to even), returned as a numerator/denominator pair. -/
def roundFP (n d : Nat) : Nat × Nat :=
  if n = 0 then (0, 1)
  else
    let p := findShift 4000 n d
    let m := rte (n * 2 ^ p.1) (d * 2 ^ p.2)
    (m * 2 ^ p.2, 2 ^ p.1)

/-- Embedding of the body of `map_rain_to_ct` after clamping (source lines
204-206), on the clamped percentage `r : Nat`:
`rain / 100.0` is a float division, the multiplication by `3800` and the
addition of `2700` are float operations (both integer operands are exactly
representable), and `int(..)` truncates toward zero (= floor, value ≥ 0). -/
def map_rain_to_ct_core (r : Nat) : Int :=
  let f1 := roundFP r 100
  let f2 := roundFP (3800 * f1.1) f1.2
  let f3 := roundFP (f2.1 + 2700 * f2.2) f2.2
  ((f3.1 / f3.2 : Nat) : Int)

/-- Embedding of `map_rain_to_ct` (source lines 198-206):
`rain = max(0, min(100, int(rain)))` then the float computation. -/
def map_rain_to_ct (rain : Int) : Int :=
  map_rain_to_ct_core (max 0 (min 100 rain)).toNat

example : map_rain_to_ct 0 = 2700 := by decide
example : map_rain_to_ct 1 = 2738 := by decide
example : map_rain_to_ct 100 = 6500 := by decide

/-! ## JSON values and the weather fetch

A JSON body is modelled by `Js` (numbers as `Int`: the script never reads a
fractional number, it only compares `statusCode` to `100`).  An object is an
association list; Python subscripting `data[k]` raises on a missing key or a
non-dict, which the model renders as `none`.  The outcome of one HTTP
request is `HttpOutcome`: either the library raised (timeout, connection
error) or a response arrived with a status code and a body, the body being
`none` when it is not valid JSON. -/

inductive Js where
  | null
  | bool (b : Bool)
  | str (s : String)
  | num (n : Int)
  | arr (xs : List Js)
  | obj (kvs : List (String × Js))

def jsLookup : List (String × Js) → String → Option Js
  | [], _ => none
  | (k, v) :: rest, key => if k = key then some v else jsLookup rest key

/-- Python `data[key]` on a JSON value: `none` models the raised
`KeyError`/`TypeError` when the value is not a dict or lacks the key. -/
def jsGetKey (j : Js) (key : String) : Option Js :=
  match j with
  | .obj kvs => jsLookup kvs key
  | _ => none

/-- Python `data[i]` on a JSON value: `none` models the raised
`IndexError`/`TypeError` when the value is not a list of length > `i`. -/
def jsIndex (j : Js) (i : Nat) : Option Js :=
  match j with
  | .arr xs => xs.get? i
  | _ => none

inductive HttpOutcome where
  | exn
  | resp (status : Nat) (body : Option Js)

/-- Embedding of `_to_int_pct` (source lines 56-58): strip every non-digit
character (`re.sub` with the non-digit class), then parse the remaining
digit string, the empty string giving 0 (`int(.. or 0)`).  `none` models a
Python `None` argument, handled by `s or ""`.  Digits are taken to be the
ASCII digits: Python's digit class also accepts other Unicode decimal
digits, a corner no theorem below relies on. -/
def _to_int_pct (s : Option String) : Nat :=
  ((s.getD "").data.filter Char.isDigit).foldl (fun a c => 10 * a + (c.toNat - 48)) 0

example : _to_int_pct (some ("40%")) = 40 := by decide
example : _to_int_pct (some ("")) = 0 := by decide
example : _to_int_pct none = 0 := by decide
example : _to_int_pct (some ("-5")) = 5 := by decide

/-- One slot of the `chanceOfRain` dict: `rain.get(key, "")` followed by
`_to_int_pct`.  A missing key yields the default `""` hence 0.  A present
falsy value (JSON null, false, or the number 0) is turned into `""` by the
`s or ""` guard and also yields 0; any other non-string value reaches
`re.sub`, which raises a `TypeError` outside the `try` block, modelled as
`none`. -/
def slotPct (kvs : List (String × Js)) (key : String) : Option Nat :=
  match jsLookup kvs key with
  | none => some (_to_int_pct (some ""))
  | some (.str s) => some (_to_int_pct (some s))
  | some .null => some (_to_int_pct none)
  | some (.bool false) => some (_to_int_pct none)
  | some (.num 0) => some (_to_int_pct none)
  | some _ => none

/-- Embedding of `get_today_rain_percent_max_all` (source lines 60-85) as a
function of the outcome of the single GET request.  The `try` block covers
the request, `raise_for_status` (which raises exactly for status codes in
the 4xx/5xx range, 400-599: any other status, 700 included, passes),
`r.json()`, and the extraction `data["forecasts"][0]["chanceOfRain"]`; any
of these failing returns 0.  Outside the `try`, `rain.get(..)` on a
non-dict raises an uncaught `AttributeError`, modelled as `none`. -/
def get_today_rain_percent_max_all (fetch : HttpOutcome) : Option Nat :=
  match fetch with
  | .exn => some 0
  | .resp status body =>
    if 400 ≤ status ∧ status < 600 then some 0
    else
      match body with
      | none => some 0
      | some data =>
        match (jsGetKey data ("forecasts")).bind
            (fun f => (jsIndex f 0).bind (fun t => jsGetKey t ("chanceOfRain"))) with
        | none => some 0
        | some (.obj kvs) =>
          match slotPct kvs ("T06_12"), slotPct kvs ("T12_18"), slotPct kvs ("T18_24") with
          | some a, some b, some c => some (max a (max b c))
          | _, _, _ => none
        | some _ => none

/-! ## UTF-8, SHA-256, HMAC-SHA256 and Base64

Concrete implementations of the library primitives the script calls
(`encode("utf-8")`, `hashlib.sha256` via `hmac.new`, `base64.b64encode`).
Bytes are naturals below 256, 32-bit words are naturals reduced mod `2^32`. -/

def utf8Char (c : Char) : List Nat :=
  let n := c.toNat
  if n < 128 then [n]
  else if n < 2048 then [192 + n / 64, 128 + n % 64]
  else if n < 65536 then [224 + n / 4096, 128 + n / 64 % 64, 128 + n % 64]
  else [240 + n / 262144, 128 + n / 4096 % 64, 128 + n / 64 % 64, 128 + n % 64]

/-- Python `s.encode("utf-8")` as a list of bytes. -/
def utf8 (s : String) : List Nat :=
  (s.data.map utf8Char).flatten

def w32 (x : Nat) : Nat := x % 2 ^ 32

/-- Rotate a 32-bit word right by `n` places. -/
def rotr (x n : Nat) : Nat := w32 (x / 2 ^ n + x % 2 ^ n * 2 ^ (32 - n))

/-- Bitwise complement of a 32-bit word. -/
def bnot32 (x : Nat) : Nat := Nat.xor x (2 ^ 32 - 1)

/-- The SHA-256 round constants (FIPS 180-4), written in decimal. -/
def K256 : List Nat :=
  [1116352408, 1899447441, 3049323471, 3921009573,
   961987163, 1508970993, 2453635748, 2870763221,
   3624381080, 310598401, 607225278, 1426881987,
   1925078388, 2162078206, 2614888103, 3248222580,
   3835390401, 4022224774, 264347078, 604807628,
   770255983, 1249150122, 1555081692, 1996064986,
   2554220882, 2821834349, 2952996808, 3210313671,
   3336571891, 3584528711, 113926993, 338241895,
   666307205, 773529912, 1294757372, 1396182291,
   1695183700, 1986661051, 2177026350, 2456956037,
   2730485921, 2820302411, 3259730800, 3345764771,
   3516065817, 3600352804, 4094571909, 275423344,
   430227734, 506948616, 659060556, 883997877,
   958139571, 1322822218, 1537002063, 1747873779,
   1955562222, 2024104815, 2227730452, 2361852424,
   2428436474, 2756734187, 3204031479, 3329325298]

/-- The SHA-256 initial hash value (FIPS 180-4), written in decimal. -/
def H256 : List Nat :=
  [1779033703, 3144134277, 1013904242, 2773480762,
   1359893119, 2600822924, 528734635, 1541459225]

/-- The `k` big-endian bytes of `x`. -/
def toBytesBE (k x : Nat) : List Nat :=
  (List.range k).map (fun i => x / 2 ^ (8 * (k - 1 - i)) % 256)

/-- Group bytes into 32-bit big-endian words. -/
def bytesToWords : List Nat → List Nat
  | a :: b :: c :: d :: rest => (((a * 256 + b) * 256 + c) * 256 + d) :: bytesToWords rest
  | _ => []

/-- SHA-256 padding: append `0x80`, zero bytes to 56 mod 64, then the
message length in bits as 8 big-endian bytes. -/
def padMessage (msg : List Nat) : List Nat :=
  msg ++ [128] ++ List.replicate ((64 - (msg.length + 9) % 64) % 64) 0
      ++ toBytesBE 8 (8 * msg.length)

/-- The 64-byte blocks of a padded message. -/
def blocks64 (l : List Nat) : List (List Nat) :=
  (List.range (l.length / 64)).map (fun i => (l.drop (64 * i)).take 64)

/-- Extend 16 message words to the 64-entry message schedule. -/
def schedule (ws : List Nat) : List Nat :=
  (List.range 48).foldl
    (fun acc _ =>
      let i := acc.length
      let s0 :=
        Nat.xor (rotr (acc.getD (i - 15) 0) 7)
          (Nat.xor (rotr (acc.getD (i - 15) 0) 18) (acc.getD (i - 15) 0 / 2 ^ 3))
      let s1 :=
        Nat.xor (rotr (acc.getD (i - 2) 0) 17)
          (Nat.xor (rotr (acc.getD (i - 2) 0) 19) (acc.getD (i - 2) 0 / 2 ^ 10))
      acc ++ [w32 (acc.getD (i - 16) 0 + s0 + acc.getD (i - 7) 0 + s1)])
    ws

/-- One SHA-256 compression step on the working state `[a,b,c,d,e,f,g,h]`. -/
def compressStep (W : List Nat) (st : List Nat) (i : Nat) : List Nat :=
  match st with
  | [a, b, c, d, e, f, g, h] =>
    let S1 := Nat.xor (rotr e 6) (Nat.xor (rotr e 11) (rotr e 25))
    let ch := Nat.xor (Nat.land e f) (Nat.land (bnot32 e) g)
    let t1 := w32 (h + S1 + ch + K256.getD i 0 + W.getD i 0)
    let S0 := Nat.xor (rotr a 2) (Nat.xor (rotr a 13) (rotr a 22))
    let mj := Nat.xor (Nat.land a b) (Nat.xor (Nat.land a c) (Nat.land b c))
    let t2 := w32 (S0 + mj)
    [w32 (t1 + t2), a, b, c, w32 (d + t1), e, f, g]
  | other => other

/-- Process one 64-byte block into the running hash. -/
def compressBlock (H : List Nat) (block : List Nat) : List Nat :=
  let W := schedule (bytesToWords block)
  let st := (List.range 64).foldl (compressStep W) H
  List.zipWith (fun x y => w32 (x + y)) H st

/-- SHA-256 of a byte list (FIPS 180-4), as the 32-byte digest. -/
def sha256 (msg : List Nat) : List Nat :=
  (((blocks64 (padMessage msg)).foldl compressBlock H256).map (toBytesBE 4)).flatten

/-- HMAC-SHA256 (RFC 2104) with the 64-byte SHA-256 block size. -/
def hmac_sha256 (key msg : List Nat) : List Nat :=
  let k0 := if 64 < key.length then sha256 key else key
  let kp := k0 ++ List.replicate (64 - k0.length) 0
  sha256 ((kp.map (fun b => Nat.xor b 92)) ++ sha256 ((kp.map (fun b => Nat.xor b 54)) ++ msg))

def b64alphabet : List Char :=
  ("ABCDEFGHIJKLMNOPQRSTUVWXYZabcdefghijklmnopqrstuvwxyz0123456789+/").data

def b64digit (i : Nat) : Char := b64alphabet.getD i ('A')

/-- Standard Base64 with padding, on bytes grouped in threes. -/
def b64chars : List Nat → List Char
  | a :: b :: c :: rest =>
    let n := (a * 256 + b) * 256 + c
    b64digit (n / 262144) :: b64digit (n / 4096 % 64) :: b64digit (n / 64 % 64)
      :: b64digit (n % 64) :: b64chars rest
  | [a, b] =>
    let n := (a * 256 + b) * 256
    [b64digit (n / 262144), b64digit (n / 4096 % 64), b64digit (n / 64 % 64), '=']
  | [a] =>
    let n := a * 65536
    [b64digit (n / 262144), b64digit (n / 4096 % 64), '=', '=']
  | [] => []

/-- Python `base64.b64encode(..).decode("utf-8")`. -/
def b64encode (bs : List Nat) : String :=
  String.mk (b64chars bs)

/-! ## SwitchBot authentication -/

/-- The ambient effects read by one `generate_sign` call: the clock value
`int(round(time.time() * 1000))` and the freshly drawn `str(uuid.uuid4())`. -/
structure SignEnv where
  nowMs : Nat
  uuid : String

/-- Embedding of `generate_sign` (source lines 90-98). -/
def generate_sign (env : SignEnv) (token secret : String) (nonce : Option String) :
    String × String × String :=
  let nonce := match nonce with | none => env.uuid | some n => n
  let t := toString env.nowMs
  let msg := utf8 (token ++ t ++ nonce)
  let secret_bytes := utf8 secret
  let sign := b64encode (hmac_sha256 secret_bytes msg)
  (t, sign, nonce)

/-! ## Device commands, lamp control, and main

The environment-derived globals (`ACCESS_TOKEN`, `SECRET`, `DEVICE_ID`,
`CITY_CODE`, `USE_COLOR_TEMPERATURE`) become a `Config` record.  Each
`post_command` call reads the clock and draws a fresh UUID, so the effect
inputs of a run are streams `Nat → SignEnv` and `Nat → HttpOutcome`,
indexed by the position of the call. -/

structure Config where
  token : String
  secret : String
  deviceId : String
  cityCode : String
  useColorTemperature : Bool

def API_BASE_URL : String := "https://api.switch-bot.com"

def WEATHER_URL : String := "https://weather.tsukumijima.net/api/forecast/city"

/-- The URL of the weather GET (source line 66). -/
def weatherUrl (city_code : String) : String :=
  WEATHER_URL ++ ("/") ++ city_code

/-- The single GET request `requests.get(url, timeout=HTTP_TIMEOUT)` issued
by `get_today_rain_percent_max_all` (source line 68): the URL built from the
city code, and the request headers, of which the code supplies none. -/
structure WeatherRequest where
  url : String
  headers : List (String × String)

def weatherRequest (city_code : String) : WeatherRequest :=
  { url := weatherUrl city_code, headers := [] }

/-- The body dict of a device command (serialised by `json.dumps`). -/
structure CommandBody where
  command : String
  parameter : String
  commandType : String
deriving DecidableEq

/-- One POST request to the device endpoint: URL, the five headers from
source lines 111-117, and the body. -/
structure PostRequest where
  url : String
  contentType : String
  authorization : String
  t : String
  sign : String
  nonce : String
  body : CommandBody

/-- The Python control-flow outcome of one `post_command` call: either the
function returns a value (`None` or the parsed payload), or it dies on an
uncaught exception. -/
inductive PostReturn where
  | raised
  | returned (v : Option Js)

/-- What the body of `post_command`'s `try` does with the response.  The
`except` clause catches `RequestException` only, which covers a raised
`requests.post`, the `HTTPError` of `raise_for_status` (raised exactly for
statuses 400-599; any other status, 700 included, passes), and the
`requests.exceptions.JSONDecodeError` from `r.json()` on an invalid JSON
body; each of these returns `None`.  Otherwise `payload.get("statusCode")`
runs: on a dict payload it succeeds and the payload is returned whatever
its `statusCode` says (a non-100 value is only logged), but on a non-dict
payload `.get` raises an `AttributeError` the `except` does not catch. -/
def postReturn (outcome : HttpOutcome) : PostReturn :=
  match outcome with
  | .exn => .returned none
  | .resp status body =>
    if 400 ≤ status ∧ status < 600 then .returned none
    else
      match body with
      | none => .returned none
      | some payload =>
        match payload with
        | .obj kvs => .returned (some (Js.obj kvs))
        | _ => .raised

/-- Embedding of `post_command` (source lines 100-134) as a function of the
request's `HttpOutcome`: it returns the request it sends together with the
control-flow outcome described by `postReturn`. -/
def post_command (cfg : Config) (env : SignEnv) (device_id command : String)
    (parameter : String := "default") (command_type : String := "command")
    (outcome : HttpOutcome := .exn) : PostRequest × PostReturn :=
  let s := generate_sign env cfg.token cfg.secret none
  let req : PostRequest :=
    { url := API_BASE_URL ++ ("/v1.1/devices/") ++ device_id ++ ("/commands")
      contentType := "application/json; charset=utf8"
      authorization := cfg.token
      t := s.1
      sign := s.2.1
      nonce := s.2.2
      body := ⟨command, parameter, command_type⟩ }
  (req, postReturn outcome)

/-- Embedding of `clamp_brightness` (source lines 139-145).  The argument is
the result of Python `int(brightness)`: `none` when that conversion raised,
in which case the code falls back to 100; then clamp into `[1, 100]`. -/
def clamp_brightness (brightness : Option Int) : Int :=
  let b := match brightness with | some v => v | none => 100
  max 1 (min 100 b)

/-- Embedding of `set_lamp_rgb` (source lines 147-158): clamp each channel
into `[0, 255]`, clamp the brightness, then send `setBrightness`,
`setColor`, `turnOn`, each `post_command` call drawing its own `SignEnv`.
The result is the list of calls actually issued together with a completion
flag: when a `post_command` call raises (uncaught `AttributeError`, see
`postReturn`), the later statements never run, so the sequence is truncated
there and the flag is `false`. -/
def set_lamp_rgb (cfg : Config) (envs : Nat → SignEnv) (outs : Nat → HttpOutcome)
    (device_id : String) (color : Int × Int × Int) (brightness : Option Int) :
    List (PostRequest × PostReturn) × Bool :=
  let r := max 0 (min 255 color.1)
  let g := max 0 (min 255 color.2.1)
  let b := max 0 (min 255 color.2.2)
  let bright := clamp_brightness brightness
  let p1 := post_command cfg (envs 0) device_id ("setBrightness") (toString bright)
    ("command") (outs 0)
  match p1.2 with
  | .raised => ([p1], false)
  | .returned _ =>
    let p2 := post_command cfg (envs 1) device_id ("setColor")
      (toString r ++ (":") ++ toString g ++ (":") ++ toString b) ("command") (outs 1)
    match p2.2 with
    | .raised => ([p1, p2], false)
    | .returned _ =>
      let p3 := post_command cfg (envs 2) device_id ("turnOn") ("default")
        ("command") (outs 2)
      match p3.2 with
      | .raised => ([p1, p2, p3], false)
      | .returned _ => ([p1, p2, p3], true)

/-- Embedding of `set_lamp_ct` (source lines 160-171): clamp the colour
temperature into `[2700, 6500]`, clamp the brightness, then send
`setBrightness`, `setColorTemperature`, `turnOn`, with the same truncation
at an uncaught raise as `set_lamp_rgb`. -/
def set_lamp_ct (cfg : Config) (envs : Nat → SignEnv) (outs : Nat → HttpOutcome)
    (device_id : String) (color_temperature : Int) (brightness : Option Int) :
    List (PostRequest × PostReturn) × Bool :=
  let ct := max 2700 (min 6500 color_temperature)
  let bright := clamp_brightness brightness
  let p1 := post_command cfg (envs 0) device_id ("setBrightness") (toString bright)
    ("command") (outs 0)
  match p1.2 with
  | .raised => ([p1], false)
  | .returned _ =>
    let p2 := post_command cfg (envs 1) device_id ("setColorTemperature") (toString ct)
      ("command") (outs 1)
    match p2.2 with
    | .raised => ([p1, p2], false)
    | .returned _ =>
      let p3 := post_command cfg (envs 2) device_id ("turnOn") ("default")
        ("command") (outs 2)
      match p3.2 with
      | .raised => ([p1, p2, p3], false)
      | .returned _ => ([p1, p2, p3], true)

/-- How many of the three `post_command` calls of a lamp-control function
run, as a function of the response stream: the sequence stops after the
first call whose response makes it raise. -/
def issuedCount (outs : Nat → HttpOutcome) : Nat :=
  match postReturn (outs 0) with
  | .raised => 1
  | .returned _ =>
    match postReturn (outs 1) with
    | .raised => 2
    | .returned _ => 3

/-- Whether a JSON value is an object (a Python dict). -/
def jsIsObj : Js → Bool
  | .obj _ => true
  | _ => false

/-- One outbound HTTP request/response exchange of a run. -/
inductive Exchange where
  | getWeather (req : WeatherRequest) (outcome : HttpOutcome)
  | post (req : PostRequest) (result : PostReturn)

/-- Embedding of `main` (source lines 211-229) as the trace of HTTP
exchanges of one run, together with its result: `some true` on the normal
path, `none` when an uncaught exception kills the run (either
`get_today_rain_percent_max_all` raising after the GET, or a lamp
`post_command` call raising, aborting the remaining POSTs). -/
def main (cfg : Config) (weather : HttpOutcome) (envs : Nat → SignEnv)
    (outs : Nat → HttpOutcome) : List Exchange × Option Bool :=
  match get_today_rain_percent_max_all weather with
  | none => ([Exchange.getWeather (weatherRequest cfg.cityCode) weather], none)
  | some rain =>
    let brightness : Int := 100
    let lamp :=
      if cfg.useColorTemperature then
        set_lamp_ct cfg envs outs cfg.deviceId (map_rain_to_ct rain) (some brightness)
      else
        set_lamp_rgb cfg envs outs cfg.deviceId (map_rain_to_rgb rain) (some brightness)
    (Exchange.getWeather (weatherRequest cfg.cityCode) weather
       :: lamp.1.map (fun p => Exchange.post p.1 p.2),
     if lamp.2 then some true else none)

/-- One optional time-slot entry of a `chanceOfRain` object. -/
def optSlot (key : String) : Option String → List (String × Js)
  | none => []
  | some s => [(key, Js.str s)]

/-- A `chanceOfRain` object whose four time-slot fields are each present
(with a string value) or absent. -/
def mkRainObj (t0 t6 t12 t18 : Option String) : Js :=
  Js.obj (optSlot ("T00_06") t0 ++ optSlot ("T06_12") t6
    ++ optSlot ("T12_18") t12 ++ optSlot ("T18_24") t18)

/-- A sample configuration for concrete evaluations. -/
def cfg0 : Config :=
  { token := "token0", secret := "secret0", deviceId := "device0",
    cityCode := "130010", useColorTemperature := false }

/-- A sample clock/uuid draw for concrete evaluations. -/
def env0 : SignEnv := { nowMs := 1700000000000, uuid := "uuid-0" }

/-- A sample well-formed weather response body. -/
def rainBody0 : Js :=
  Js.obj [(("forecasts"),
    Js.arr [Js.obj [(("chanceOfRain"),
      mkRainObj (some ("90%")) (some ("10%")) (some ("40%")) (some ("20%")))]])]

/-- A sample device payload whose `statusCode` is not 100. -/
def payload190 : Js := Js.obj [(("statusCode"), Js.num 190)]

/-! ## Theorems -/

set_option maxRecDepth 100000 in
/-- The float computation of `map_rain_to_ct` agrees with the integer
expression `2700 + 38 * r` on every clamped percentage, checked exhaustively
through the exact binary64 rounding model. -/
lemma map_rain_to_ct_core_eq : ∀ r : Nat, r < 101 → map_rain_to_ct_core r = 2700 + 38 * (r : Int) := by
  decide

lemma map_rain_to_ct_eq (x : Int) :
    map_rain_to_ct x = 2700 + 38 * max 0 (min 100 x) := by
  unfold map_rain_to_ct
  have hlt : (max 0 (min 100 x)).toNat < 101 := by omega
  rw [map_rain_to_ct_core_eq _ hlt]
  omega

/-- C1: for every integer rain in 0..100, `map_rain_to_rgb` returns the six
fixed buckets: 0 ↦ (255,127,0); 1..20 ↦ (255,255,0); 21..40 ↦ (127,255,0);
41..60 ↦ (0,255,255); 61..80 ↦ (0,127,255); above 80 ↦ (0,0,255). -/
theorem map_rain_to_rgb_buckets (rain : Int) (h0 : 0 ≤ rain) (h1 : rain ≤ 100) :
    (rain = 0 → map_rain_to_rgb rain = (255, 127, 0)) ∧
    (1 ≤ rain → rain ≤ 20 → map_rain_to_rgb rain = (255, 255, 0)) ∧
    (21 ≤ rain → rain ≤ 40 → map_rain_to_rgb rain = (127, 255, 0)) ∧
    (41 ≤ rain → rain ≤ 60 → map_rain_to_rgb rain = (0, 255, 255)) ∧
    (61 ≤ rain → rain ≤ 80 → map_rain_to_rgb rain = (0, 127, 255)) ∧
    (80 < rain → map_rain_to_rgb rain = (0, 0, 255)) := by
  unfold map_rain_to_rgb
  refine ⟨fun h => by rw [if_pos h],
    fun ha hb => by rw [if_neg (by omega), if_pos (by omega)],
    fun ha hb => by rw [if_neg (by omega), if_neg (by omega), if_pos (by omega)],
    fun ha hb => by rw [if_neg (by omega), if_neg (by omega), if_neg (by omega), if_pos (by omega)],
    fun ha hb => by
      rw [if_neg (by omega), if_neg (by omega), if_neg (by omega), if_neg (by omega),
        if_pos (by omega)],
    fun ha => by
      rw [if_neg (by omega), if_neg (by omega), if_neg (by omega), if_neg (by omega),
        if_neg (by omega)]⟩

/-- C1 witness: the theorem applied at rain = 50. -/
theorem map_rain_to_rgb_buckets_witness : map_rain_to_rgb 50 = (0, 255, 255) :=
  (map_rain_to_rgb_buckets 50 (by norm_num) (by norm_num)).2.2.2.1 (by norm_num) (by norm_num)

/-- C2: `map_rain_to_ct` is linear in the percentage: on 0..100 it returns
`2700 + (6500 - 2700) * rain / 100 = 2700 + 38 * rain` (so 0 ↦ 2700 and
100 ↦ 6500); every input is first clamped into 0..100, and the result always
lies in [2700, 6500]. -/
theorem map_rain_to_ct_linear (rain : Int) (h0 : 0 ≤ rain) (h1 : rain ≤ 100) :
    map_rain_to_ct rain = 2700 + (6500 - 2700) * rain / 100 ∧
    map_rain_to_ct rain = 2700 + 38 * rain ∧
    (∀ x : Int, map_rain_to_ct x = map_rain_to_ct (max 0 (min 100 x)) ∧
      2700 ≤ map_rain_to_ct x ∧ map_rain_to_ct x ≤ 6500) := by
  have key : map_rain_to_ct rain = 2700 + 38 * rain := by
    rw [map_rain_to_ct_eq]; omega
  refine ⟨by omega, key, fun x => ?_⟩
  rw [map_rain_to_ct_eq x, map_rain_to_ct_eq (max 0 (min 100 x))]
  omega

/-- C2 witness: the theorem applied at rain = 25 (and its clamping clause at
the out-of-range input 120). -/
theorem map_rain_to_ct_linear_witness :
    map_rain_to_ct 25 = 2700 + 38 * 25 ∧ map_rain_to_ct 120 = map_rain_to_ct 100 := by
  refine ⟨(map_rain_to_ct_linear 25 (by norm_num) (by norm_num)).2.1, ?_⟩
  have h := ((map_rain_to_ct_linear 25 (by norm_num) (by norm_num)).2.2 120).1
  simpa using h

/-- C3: on a successful fetch and extraction, the result is the maximum of
exactly the three parsed slots T06_12, T12_18, T18_24 (a missing slot
parsing as 0 through the default `""`), and the T00_06 slot is never
consulted: the result is stated for every value of `t0`, present or
absent, and does not depend on it. -/
theorem get_today_max_of_slots (status : Nat) (data : Js) (t0 t6 t12 t18 : Option String)
    (hstatus : status < 400)
    (hrain : (jsGetKey data ("forecasts")).bind
        (fun f => (jsIndex f 0).bind (fun t => jsGetKey t ("chanceOfRain")))
      = some (mkRainObj t0 t6 t12 t18)) :
    get_today_rain_percent_max_all (.resp status (some data)) =
      some (max (_to_int_pct (some (t6.getD "")))
        (max (_to_int_pct (some (t12.getD ""))) (_to_int_pct (some (t18.getD ""))))) := by
  simp only [get_today_rain_percent_max_all]
  rw [if_neg (by omega), hrain]
  cases t0 <;> cases t6 <;> cases t12 <;> cases t18 <;>
    simp [mkRainObj, optSlot, slotPct, jsLookup]

/-- C3 witness: the theorem applied to a concrete 200 response whose slots
are 90% (midnight, ignored), 10%, 40%, 20%; the result is 40. -/
theorem get_today_max_of_slots_witness :
    get_today_rain_percent_max_all (.resp 200 (some rainBody0)) = some 40 := by
  have h := get_today_max_of_slots 200 rainBody0
    (some ("90%")) (some ("10%")) (some ("40%")) (some ("20%")) (by norm_num) (by rfl)
  rw [h]
  rfl

/-- C4 counterexample: a response with the non-success status 700 and a
valid body is not a failure for the code: `raise_for_status` raises only
for 400-599, so the body is parsed and the maximum 40 is returned, not 0.
This refutes the claim that any non-success status yields 0. -/
theorem get_today_status_700_counterexample :
    get_today_rain_percent_max_all (HttpOutcome.resp 700 (some rainBody0)) = some 40 ∧
    ¬ get_today_rain_percent_max_all (HttpOutcome.resp 700 (some rainBody0)) = some 0 := by
  constructor
  · rfl
  · intro h
    rw [show get_today_rain_percent_max_all (HttpOutcome.resp 700 (some rainBody0))
        = some 40 from rfl] at h
    simp at h

/-- C4 amended: any failure the `try` block catches yields 0 rather than an
exception: the GET raising, a status in 400-599 (the exact range
`raise_for_status` raises for), an invalid JSON body, or a body lacking
`forecasts[0].chanceOfRain`. -/
theorem get_today_zero_on_failure (fetch : HttpOutcome)
    (h : fetch = HttpOutcome.exn ∨
      (∃ s b, fetch = HttpOutcome.resp s b ∧ 400 ≤ s ∧ s < 600) ∨
      (∃ s, fetch = HttpOutcome.resp s none) ∨
      (∃ s data, fetch = HttpOutcome.resp s (some data) ∧
        (jsGetKey data ("forecasts")).bind
          (fun f => (jsIndex f 0).bind (fun t => jsGetKey t ("chanceOfRain"))) = none)) :
    get_today_rain_percent_max_all fetch = some 0 := by
  rcases h with rfl | ⟨s, b, rfl, hs⟩ | ⟨s, rfl⟩ | ⟨s, data, rfl, hx⟩
  · rfl
  · simp only [get_today_rain_percent_max_all]
    rw [if_pos hs]
  · simp only [get_today_rain_percent_max_all]
    split
    · rfl
    · rfl
  · simp only [get_today_rain_percent_max_all]
    by_cases hs : 400 ≤ s ∧ s < 600
    · rw [if_pos hs]
    · rw [if_neg hs, hx]

/-- C4 witness: the theorem applied to a 500 response with an invalid body. -/
theorem get_today_zero_on_failure_witness :
    get_today_rain_percent_max_all (HttpOutcome.resp 500 none) = some 0 :=
  get_today_zero_on_failure _ (Or.inr (Or.inl ⟨500, none, rfl, by norm_num, by norm_num⟩))

/-- C5: `generate_sign` returns the triple `(t, sign, nonce)` where `t` is
the clock value in milliseconds rendered as a decimal string and `sign` is
the Base64 of the HMAC-SHA256 digest keyed by the UTF-8 bytes of the secret
over the UTF-8 bytes of `token + t + nonce`; a missing nonce is replaced by
the freshly drawn UUID string. -/
theorem generate_sign_spec (env : SignEnv) (token secret nonce : String) :
    generate_sign env token secret (some nonce) =
      (Nat.repr env.nowMs,
        b64encode (hmac_sha256 (utf8 secret) (utf8 (token ++ Nat.repr env.nowMs ++ nonce))),
        nonce) ∧
    generate_sign env token secret none =
      (Nat.repr env.nowMs,
        b64encode (hmac_sha256 (utf8 secret) (utf8 (token ++ Nat.repr env.nowMs ++ env.uuid))),
        env.uuid) :=
  ⟨rfl, rfl⟩

/-- The calls issued by `set_lamp_rgb` are the first `issuedCount outs` of
the three `post_command` calls it can make. -/
lemma set_lamp_rgb_fst (cfg : Config) (envs : Nat → SignEnv) (outs : Nat → HttpOutcome)
    (device_id : String) (color : Int × Int × Int) (brightness : Option Int) :
    (set_lamp_rgb cfg envs outs device_id color brightness).1 =
      [post_command cfg (envs 0) device_id ("setBrightness")
         (toString (clamp_brightness brightness)) ("command") (outs 0),
       post_command cfg (envs 1) device_id ("setColor")
         (toString (max 0 (min 255 color.1)) ++ (":") ++ toString (max 0 (min 255 color.2.1))
           ++ (":") ++ toString (max 0 (min 255 color.2.2))) ("command") (outs 1),
       post_command cfg (envs 2) device_id ("turnOn") ("default") ("command") (outs 2)
      ].take (issuedCount outs) := by
  rcases h0 : postReturn (outs 0) with _ | v0 <;>
    rcases h1 : postReturn (outs 1) with _ | v1 <;>
      rcases h2 : postReturn (outs 2) with _ | v2 <;>
        simp [set_lamp_rgb, post_command, issuedCount, h0, h1, h2]

/-- The calls issued by `set_lamp_ct` are the first `issuedCount outs` of
the three `post_command` calls it can make. -/
lemma set_lamp_ct_fst (cfg : Config) (envs : Nat → SignEnv) (outs : Nat → HttpOutcome)
    (device_id : String) (color_temperature : Int) (brightness : Option Int) :
    (set_lamp_ct cfg envs outs device_id color_temperature brightness).1 =
      [post_command cfg (envs 0) device_id ("setBrightness")
         (toString (clamp_brightness brightness)) ("command") (outs 0),
       post_command cfg (envs 1) device_id ("setColorTemperature")
         (toString (max 2700 (min 6500 color_temperature))) ("command") (outs 1),
       post_command cfg (envs 2) device_id ("turnOn") ("default") ("command") (outs 2)
      ].take (issuedCount outs) := by
  rcases h0 : postReturn (outs 0) with _ | v0 <;>
    rcases h1 : postReturn (outs 1) with _ | v1 <;>
      rcases h2 : postReturn (outs 2) with _ | v2 <;>
        simp [set_lamp_ct, post_command, issuedCount, h0, h1, h2]

/-- A completed lamp-control call issued all three POSTs. -/
lemma set_lamp_rgb_completed (cfg : Config) (envs : Nat → SignEnv) (outs : Nat → HttpOutcome)
    (device_id : String) (color : Int × Int × Int) (brightness : Option Int)
    (h : (set_lamp_rgb cfg envs outs device_id color brightness).2 = true) :
    (set_lamp_rgb cfg envs outs device_id color brightness).1.length = 3 := by
  rcases h0 : postReturn (outs 0) with _ | v0 <;>
    rcases h1 : postReturn (outs 1) with _ | v1 <;>
      rcases h2 : postReturn (outs 2) with _ | v2 <;>
        simp [set_lamp_rgb, post_command, h0, h1, h2] at h ⊢

/-- A completed lamp-control call issued all three POSTs. -/
lemma set_lamp_ct_completed (cfg : Config) (envs : Nat → SignEnv) (outs : Nat → HttpOutcome)
    (device_id : String) (color_temperature : Int) (brightness : Option Int)
    (h : (set_lamp_ct cfg envs outs device_id color_temperature brightness).2 = true) :
    (set_lamp_ct cfg envs outs device_id color_temperature brightness).1.length = 3 := by
  rcases h0 : postReturn (outs 0) with _ | v0 <;>
    rcases h1 : postReturn (outs 1) with _ | v1 <;>
      rcases h2 : postReturn (outs 2) with _ | v2 <;>
        simp [set_lamp_ct, post_command, h0, h1, h2] at h ⊢

/-- C6 counterexample: when the first POST's response is a 2xx with the
valid non-object JSON body `[]`, `payload.get` raises an uncaught
`AttributeError`, so only one POST is issued, refuting the claim that every
invocation issues exactly three. -/
theorem lamp_posts_not_always_three :
    (set_lamp_rgb cfg0 (fun _ => env0) (fun _ => HttpOutcome.resp 200 (some (Js.arr [])))
        ("device0") (255, 127, 0) (some 100)).1.length = 1 ∧
    ¬ (set_lamp_rgb cfg0 (fun _ => env0) (fun _ => HttpOutcome.resp 200 (some (Js.arr [])))
        ("device0") (255, 127, 0) (some 100)).1.length = 3 := by
  constructor
  · rfl
  · intro h
    rw [show (set_lamp_rgb cfg0 (fun _ => env0)
        (fun _ => HttpOutcome.resp 200 (some (Js.arr [])))
        ("device0") (255, 127, 0) (some 100)).1.length = 1 from rfl] at h
    simp at h

/-- C6 amended: each lamp-control function issues its POSTs to the
device-command endpoint in order setBrightness, setColor (resp.
setColorTemperature), turnOn, the i-th request signed from its own
clock/uuid draw `envs i` by a fresh `generate_sign` call; the sequence is
truncated at the first call that raises an uncaught exception, and whenever
no call raises, exactly three POSTs are issued. -/
theorem lamp_three_signed_posts (cfg : Config) (envs : Nat → SignEnv)
    (outs : Nat → HttpOutcome) (device_id : String) (color : Int × Int × Int)
    (ct : Int) (brightness : Option Int) :
    (set_lamp_rgb cfg envs outs device_id color brightness).1.map
        (fun p => (p.1.url, p.1.body.command)) =
      ([(API_BASE_URL ++ ("/v1.1/devices/") ++ device_id ++ ("/commands"), "setBrightness"),
        (API_BASE_URL ++ ("/v1.1/devices/") ++ device_id ++ ("/commands"), "setColor"),
        (API_BASE_URL ++ ("/v1.1/devices/") ++ device_id ++ ("/commands"), "turnOn")
       ].take (issuedCount outs)) ∧
    (set_lamp_ct cfg envs outs device_id ct brightness).1.map
        (fun p => (p.1.url, p.1.body.command)) =
      ([(API_BASE_URL ++ ("/v1.1/devices/") ++ device_id ++ ("/commands"), "setBrightness"),
        (API_BASE_URL ++ ("/v1.1/devices/") ++ device_id ++ ("/commands"), "setColorTemperature"),
        (API_BASE_URL ++ ("/v1.1/devices/") ++ device_id ++ ("/commands"), "turnOn")
       ].take (issuedCount outs)) ∧
    (set_lamp_rgb cfg envs outs device_id color brightness).1.map
        (fun p => (p.1.t, p.1.sign, p.1.nonce)) =
      ([generate_sign (envs 0) cfg.token cfg.secret none,
        generate_sign (envs 1) cfg.token cfg.secret none,
        generate_sign (envs 2) cfg.token cfg.secret none].take (issuedCount outs)) ∧
    (set_lamp_ct cfg envs outs device_id ct brightness).1.map
        (fun p => (p.1.t, p.1.sign, p.1.nonce)) =
      ([generate_sign (envs 0) cfg.token cfg.secret none,
        generate_sign (envs 1) cfg.token cfg.secret none,
        generate_sign (envs 2) cfg.token cfg.secret none].take (issuedCount outs)) ∧
    ((∀ i, postReturn (outs i) ≠ PostReturn.raised) → issuedCount outs = 3) := by
  refine ⟨?_, ?_, ?_, ?_, ?_⟩
  · rw [set_lamp_rgb_fst, List.map_take]
    rfl
  · rw [set_lamp_ct_fst, List.map_take]
    rfl
  · rw [set_lamp_rgb_fst, List.map_take]
    rfl
  · rw [set_lamp_ct_fst, List.map_take]
    rfl
  · intro hall
    rcases h0 : postReturn (outs 0) with _ | v0
    · exact absurd h0 (hall 0)
    · rcases h1 : postReturn (outs 1) with _ | v1
      · exact absurd h1 (hall 1)
      · simp [issuedCount, h0, h1]

/-- C6 amended witness: the theorem applied at a run whose three POSTs all
return (request-level failures return `None` and do not raise), so all
three commands are issued. -/
theorem lamp_three_signed_posts_witness :
    issuedCount (fun _ => HttpOutcome.exn) = 3 :=
  (lamp_three_signed_posts cfg0 (fun _ => env0) (fun _ => HttpOutcome.exn)
      ("device0") (255, 127, 0) 2700 (some 100)).2.2.2.2
    (fun _ h => PostReturn.noConfusion h)

/-- C7 counterexample: the weather GET for city 130010 carries no header at
all and nothing but the city code in the URL, refuting the claim that it is
authenticated by credentials or signed headers. -/
theorem weather_get_no_auth_counterexample :
    (weatherRequest ("130010")).headers = [] ∧
    (weatherRequest ("130010")).url =
      ("https://weather.tsukumijima.net/api/forecast/city/130010") :=
  ⟨rfl, rfl⟩

/-- C7 amended: the weather GET is unauthenticated: for every city code the
request supplies no headers, and its URL is the fixed endpoint followed by
the city code only. -/
theorem weather_get_no_auth (city_code : String) :
    (weatherRequest city_code).headers = [] ∧
    (weatherRequest city_code).url = WEATHER_URL ++ ("/") ++ city_code :=
  ⟨rfl, rfl⟩

/-- C8 counterexample: a concrete run of `main` issues four HTTP exchanges,
not two. -/
theorem main_trace_not_two :
    (main cfg0 HttpOutcome.exn (fun _ => env0) (fun _ => HttpOutcome.exn)).1.length = 4 ∧
    ¬ (main cfg0 HttpOutcome.exn (fun _ => env0) (fun _ => HttpOutcome.exn)).1.length = 2 := by
  constructor
  · rfl
  · intro h
    simp only [main] at h
    revert h
    decide

/-- C8 amended: every run of `main` that completes normally issues exactly
four HTTP exchanges: the weather GET followed by three device POSTs. -/
theorem main_four_exchanges (cfg : Config) (weather : HttpOutcome)
    (envs : Nat → SignEnv) (outs : Nat → HttpOutcome)
    (h : (main cfg weather envs outs).2 = some true) :
    (main cfg weather envs outs).1.length = 4 ∧
    ∃ ps, (main cfg weather envs outs).1 =
      Exchange.getWeather (weatherRequest cfg.cityCode) weather :: ps ∧ ps.length = 3 := by
  rcases hget : get_today_rain_percent_max_all weather with _ | rain
  · exfalso
    simp only [main, hget] at h
    exact Option.noConfusion h
  · simp only [main, hget] at h ⊢
    by_cases hc : cfg.useColorTemperature
    · simp only [hc, if_true] at h ⊢
      rcases hl : (set_lamp_ct cfg envs outs cfg.deviceId
          (map_rain_to_ct (rain : Int)) (some 100)).2 with _ | _
      · rw [hl] at h
        simp at h
      · have h3 := set_lamp_ct_completed cfg envs outs cfg.deviceId
          (map_rain_to_ct (rain : Int)) (some 100) hl
        refine ⟨by simp [h3], ⟨_, rfl, by simp [h3]⟩⟩
    · simp only [hc, if_false, Bool.false_eq_true, ite_false] at h ⊢
      rcases hl : (set_lamp_rgb cfg envs outs cfg.deviceId
          (map_rain_to_rgb (rain : Int)) (some 100)).2 with _ | _
      · rw [hl] at h
        simp at h
      · have h3 := set_lamp_rgb_completed cfg envs outs cfg.deviceId
          (map_rain_to_rgb (rain : Int)) (some 100) hl
        refine ⟨by simp [h3], ⟨_, rfl, by simp [h3]⟩⟩

/-- C8 amended witness: the theorem applied at a concrete run. -/
theorem main_four_exchanges_witness :
    (main cfg0 HttpOutcome.exn (fun _ => env0) (fun _ => HttpOutcome.exn)).1.length = 4 :=
  (main_four_exchanges cfg0 HttpOutcome.exn (fun _ => env0) (fun _ => HttpOutcome.exn) rfl).1

/-- The control-flow outcome of `post_command` depends only on the HTTP
outcome of its POST. -/
lemma post_command_snd (cfg : Config) (env : SignEnv)
    (device_id command parameter command_type : String) (outcome : HttpOutcome) :
    (post_command cfg env device_id command parameter command_type outcome).2 =
      postReturn outcome :=
  rfl

/-- C9: the parameters of every device command actually sent are clamped
into the legal range whatever the caller passed: `set_lamp_rgb` sends each
RGB channel clamped into [0, 255] and a brightness clamped into [1, 100]
(a brightness whose `int(..)` conversion fails becomes 100), and
`set_lamp_ct` sends a colour temperature clamped into [2700, 6500] and the
same brightness; the issued command/parameter pairs are exactly the clamped
list, truncated at the first call that raises. -/
theorem lamp_parameters_clamped (cfg : Config) (envs : Nat → SignEnv)
    (outs : Nat → HttpOutcome) (device_id : String) (r g b ct : Int)
    (bright : Option Int) :
    (set_lamp_rgb cfg envs outs device_id (r, g, b) bright).1.map
        (fun p => (p.1.body.command, p.1.body.parameter)) =
      ([("setBrightness", toString (clamp_brightness bright)),
        ("setColor", toString (max 0 (min 255 r)) ++ (":") ++ toString (max 0 (min 255 g))
          ++ (":") ++ toString (max 0 (min 255 b))),
        ("turnOn", "default")].take (issuedCount outs)) ∧
    (set_lamp_ct cfg envs outs device_id ct bright).1.map
        (fun p => (p.1.body.command, p.1.body.parameter)) =
      ([("setBrightness", toString (clamp_brightness bright)),
        ("setColorTemperature", toString (max 2700 (min 6500 ct))),
        ("turnOn", "default")].take (issuedCount outs)) ∧
    1 ≤ clamp_brightness bright ∧ clamp_brightness bright ≤ 100 ∧
    clamp_brightness none = 100 ∧
    0 ≤ max 0 (min 255 r) ∧ max 0 (min 255 r) ≤ 255 ∧
    2700 ≤ max 2700 (min 6500 ct) ∧ max 2700 (min 6500 ct) ≤ 6500 := by
  refine ⟨?_, ?_, ?_, ?_, rfl, by omega, by omega, by omega, by omega⟩
  · rw [set_lamp_rgb_fst, List.map_take]
    rfl
  · rw [set_lamp_ct_fst, List.map_take]
    rfl
  · cases bright <;> simp only [clamp_brightness] <;> omega
  · cases bright <;> simp only [clamp_brightness] <;> omega

/-- C10 counterexample: at the non-success status 700 the parsed payload is
returned rather than `None` (`raise_for_status` passes statuses outside
400-599), and a 200 response with the valid non-object JSON body `[]`
raises an uncaught `AttributeError` at `payload.get` rather than returning
the payload: both refute the claim's characterisation of when `None` is
returned and when the payload is. -/
theorem post_command_700_counterexample :
    (post_command cfg0 env0 ("device0") ("turnOn") ("default") ("command")
        (HttpOutcome.resp 700 (some payload190))).2
      = PostReturn.returned (some payload190) ∧
    (post_command cfg0 env0 ("device0") ("turnOn") ("default") ("command")
        (HttpOutcome.resp 200 (some (Js.arr [])))).2 = PostReturn.raised :=
  ⟨rfl, rfl⟩

/-- C10 amended: `post_command` returns `None` exactly when the POST
attempt raises a `RequestException`: the request raising, a status in
400-599, or a body that is not JSON; a response with any other status whose
JSON body is an object is returned as the payload even when its
`statusCode` differs from 100 (the device error is only logged), while a
non-object JSON body on a non-raising status makes `payload.get` raise an
uncaught `AttributeError` instead of returning. -/
theorem post_command_none_iff (cfg : Config) (env : SignEnv)
    (device_id command parameter command_type : String) (outcome : HttpOutcome) :
    ((post_command cfg env device_id command parameter command_type outcome).2
        = PostReturn.returned none ↔
      (outcome = HttpOutcome.exn ∨
        ∃ s b, outcome = HttpOutcome.resp s b ∧ ((400 ≤ s ∧ s < 600) ∨ b = none))) ∧
    (∀ s kvs, ¬ (400 ≤ s ∧ s < 600) →
      (post_command cfg env device_id command parameter command_type
          (HttpOutcome.resp s (some (Js.obj kvs)))).2
        = PostReturn.returned (some (Js.obj kvs))) ∧
    (∀ s j, ¬ (400 ≤ s ∧ s < 600) → jsIsObj j = false →
      (post_command cfg env device_id command parameter command_type
          (HttpOutcome.resp s (some j))).2 = PostReturn.raised) := by
  refine ⟨?_, ?_, ?_⟩
  · rw [post_command_snd]
    cases outcome with
    | exn => simp [postReturn]
    | resp s b =>
      constructor
      · intro hnone
        refine Or.inr ⟨s, b, rfl, ?_⟩
        by_cases hs : 400 ≤ s ∧ s < 600
        · exact Or.inl hs
        · cases b with
          | none => exact Or.inr rfl
          | some payload =>
            exfalso
            cases payload <;> simp [postReturn, hs] at hnone
      · rintro (h | ⟨s2, b2, heq, hsb⟩)
        · exact HttpOutcome.noConfusion h
        · injection heq with h1 h2
          subst h1; subst h2
          rcases hsb with hs | hb
          · simp [postReturn, hs]
          · subst hb
            by_cases hs : 400 ≤ s ∧ s < 600 <;> simp [postReturn, hs]
  · intro s kvs hs
    rw [post_command_snd]
    simp [postReturn, hs]
  · intro s j hs hobj
    rw [post_command_snd]
    cases j <;> simp [postReturn, hs]
    simp [jsIsObj] at hobj

/-- C10 witness: the theorem applied to a 200 response whose object body
reports the device-API error code 190; the payload is still returned. -/
theorem post_command_none_iff_witness :
    (post_command cfg0 env0 ("device0") ("turnOn") ("default") ("command")
        (HttpOutcome.resp 200 (some payload190))).2
      = PostReturn.returned (some payload190) :=
  (post_command_none_iff cfg0 env0 ("device0") ("turnOn") ("default") ("command")
      HttpOutcome.exn).2.1 200 ([(("statusCode"), Js.num 190)]) (by omega)

end WeatherFloorLamp
